import Mathlib

/-!
Shallow embedding of the geometry shapes library (`geometry_shapes.py`).

Numeric inputs (constructor arguments, stored attributes, tolerance
comparisons) are modelled as exact rationals `ℚ`; derived areas, which
involve `π` and square roots, live in `ℝ`.  Fallible operations
(constructors that raise `ValueError`, calculator entry points that raise
`TypeError`, attribute lookup on non-shapes raising `AttributeError`)
return `Except GeomError`.
-/

namespace Geom

/-- The error kinds raised by the library: `invalidArgument` models the Python
`ValueError` raised by shape constructors, `typeMismatch` models the
`TypeError` raised by `ShapeCalculator.calculate_area`, and
`attributeError` models the `AttributeError` Python raises when `.area()`
is invoked on a value that is not a shape. -/
inductive GeomError where
  | invalidArgument (msg : String)
  | typeMismatch (msg : String)
  | attributeError (msg : String)
deriving DecidableEq, Repr

instance (ε α : Type) [DecidableEq ε] [DecidableEq α] :
    DecidableEq (Except ε α) := fun a b =>
  match a, b with
  | .ok x, .ok y => decidable_of_iff (x = y) (by simp)
  | .error x, .error y => decidable_of_iff (x = y) (by simp)
  | .ok _, .error _ => isFalse (fun h => Except.noConfusion h)
  | .error _, .ok _ => isFalse (fun h => Except.noConfusion h)

/-- A validated circle: `Circle.__init__` stores `radius`. -/
structure Circle where
  radius : ℚ
deriving DecidableEq, Repr

/-- `Circle.__init__`: rejects `radius <= 0` with `ValueError`, otherwise
stores the radius. -/
def Circle.init (radius : ℚ) : Except GeomError Circle :=
  if radius ≤ 0 then
    .error (.invalidArgument "Radius must be positive")
  else
    .ok { radius := radius }

/-- `Circle.area`: `math.pi * self.radius ** 2`. -/
noncomputable def Circle.area (c : Circle) : ℝ :=
  Real.pi * (c.radius : ℝ) ^ 2

/-- `Circle.__str__`: the f-string `Circle(radius={self.radius})`. -/
def Circle.str (c : Circle) : String :=
  "Circle(radius=" ++ toString c.radius ++ ")"

/-- A validated triangle: `Triangle.__init__` stores the three sides in
original order plus `self.sides`, the ascending-sorted copy. -/
structure Triangle where
  side1 : ℚ
  side2 : ℚ
  side3 : ℚ
  sides : List ℚ
deriving DecidableEq, Repr

/-- `Triangle.__init__`: rejects a non-positive side with `ValueError`
("All sides must be positive"); then rejects a failed triangle inequality
in any of the three orderings with a second `ValueError` message; on success stores the sides in original order and the
ascending-sorted list `sorted([side1, side2, side3])`. -/
def Triangle.init (side1 side2 side3 : ℚ) : Except GeomError Triangle :=
  if ¬ (0 < side1 ∧ 0 < side2 ∧ 0 < side3) then
    .error (.invalidArgument "All sides must be positive")
  else if side1 + side2 ≤ side3 ∨ side2 + side3 ≤ side1 ∨ side1 + side3 ≤ side2 then
    .error (.invalidArgument "Sides don\x27t form a valid triangle")
  else
    .ok { side1 := side1, side2 := side2, side3 := side3,
          sides := List.insertionSort (· ≤ ·) [side1, side2, side3] }

/-- The Heron radicand `s*(s - sides[0])*(s - sides[1])*(s - sides[2])`
with semi-perimeter `s = sum(self.sides) / 2`, computed over the stored
sorted sides. -/
def Triangle.radicand (t : Triangle) : ℚ :=
  (t.sides.sum / 2) * (t.sides.sum / 2 - t.sides.getD 0 0) *
    (t.sides.sum / 2 - t.sides.getD 1 0) * (t.sides.sum / 2 - t.sides.getD 2 0)

/-- `Triangle.area`: the Heron formula, `math.sqrt` of the radicand over the
sorted sides (the source applies the square root directly, with no
clamping of the radicand). -/
noncomputable def Triangle.area (t : Triangle) : ℝ :=
  Real.sqrt ((t.radicand : ℝ))

/-- `Triangle.is_right_triangle`: with sorted sides `a, b, c = self.sides`,
returns `abs(a**2 + b**2 - c**2) < 1e-10`. -/
def Triangle.is_right_triangle (t : Triangle) : Bool :=
  decide (|t.sides.getD 0 0 ^ 2 + t.sides.getD 1 0 ^ 2 - t.sides.getD 2 0 ^ 2|
    < 1 / 10 ^ 10)

/-- `Triangle.__str__`: `Triangle(sides={side1}, {side2}, {side3})` in the
original construction order. -/
def Triangle.str (t : Triangle) : String :=
  "Triangle(sides=" ++ toString t.side1 ++ ", " ++ toString t.side2 ++ ", "
    ++ toString t.side3 ++ ")"

/-- A validated rectangle: `Rectangle.__init__` stores `width` and
`height`. -/
structure Rectangle where
  width : ℚ
  height : ℚ
deriving DecidableEq, Repr

/-- `Rectangle.__init__`: rejects `width <= 0 or height <= 0` with
`ValueError`, otherwise stores both dimensions. -/
def Rectangle.init (width height : ℚ) : Except GeomError Rectangle :=
  if width ≤ 0 ∨ height ≤ 0 then
    .error (.invalidArgument "Width and height must be positive")
  else
    .ok { width := width, height := height }

/-- `Rectangle.area`: `self.width * self.height`. -/
def Rectangle.area (r : Rectangle) : ℝ :=
  ((r.width * r.height : ℚ) : ℝ)

/-- `Rectangle.is_square`: `abs(self.width - self.height) < 1e-10`. -/
def Rectangle.is_square (r : Rectangle) : Bool :=
  decide (|r.width - r.height| < 1 / 10 ^ 10)

/-- `Rectangle.__str__`: `Rectangle(width={width}, height={height})`. -/
def Rectangle.str (r : Rectangle) : String :=
  "Rectangle(width=" ++ toString r.width ++ ", height=" ++ toString r.height ++ ")"

/-- A value satisfying the shape capability (`isinstance(x, Shape)` in the
source): one of the three concrete variants, or `other` — a user-defined
subclass of the abstract base implementing `area()` and `__str__`
(modelling the "unknown/future shape kinds" the calculator must tolerate). -/
inductive Shape where
  | circle (c : Circle)
  | triangle (t : Triangle)
  | rectangle (r : Rectangle)
  | other (typeName : String) (a : ℝ) (descr : String)

/-- Dynamic dispatch of `shape.area()` through the abstract base class. -/
noncomputable def Shape.area : Shape → ℝ
  | .circle c => c.area
  | .triangle t => t.area
  | .rectangle r => r.area
  | .other _ a _ => a

/-- `type(shape).__name__`: the concrete class name. -/
def Shape.typeName : Shape → String
  | .circle _ => "Circle"
  | .triangle _ => "Triangle"
  | .rectangle _ => "Rectangle"
  | .other n _ _ => n

/-- `str(shape)`: dynamic dispatch of `__str__`. -/
def Shape.str : Shape → String
  | .circle c => c.str
  | .triangle t => t.str
  | .rectangle r => r.str
  | .other _ _ d => d

/-- An arbitrary Python value reaching a calculator entry point: either a
value satisfying the shape capability, or an unrelated non-shape object
(carrying only its class name). -/
inductive Value where
  | shape (s : Shape)
  | nonShape (typeName : String)

/-- `v.area()` as Python evaluates it: dispatches through the capability
when `v` is a shape; on a non-shape, attribute lookup of `area` fails with
`AttributeError`. -/
noncomputable def Value.areaAttr : Value → Except GeomError ℝ
  | .shape s => .ok s.area
  | .nonShape n => .error (.attributeError (n ++ " object has no attribute area"))

/-- `type(v).__name__` works on any Python value. -/
def Value.typeName : Value → String
  | .shape s => s.typeName
  | .nonShape n => n

/-- `ShapeCalculator.calculate_area`: raises `TypeError` ("Object must be
a Shape") when `not isinstance(shape, Shape)`, otherwise returns
`shape.area()`. -/
noncomputable def ShapeCalculator.calculate_area : Value → Except GeomError ℝ
  | .shape s => .ok s.area
  | .nonShape _ => .error (.typeMismatch "Object must be a Shape")

/-- `ShapeCalculator.calculate_total_area`:
`sum(shape.area() for shape in shapes)` — the Python `sum` builtin starts from `0`
and folds left over the sequence in order, invoking `.area()` on each
element with no capability check (so a non-shape element raises
`AttributeError` at its position). -/
noncomputable def ShapeCalculator.calculate_total_area (shapes : List Value) :
    Except GeomError ℝ :=
  shapes.foldlM (fun acc v => do
    let a ← v.areaAttr
    pure (acc + a)) (0 : ℝ)

/-- The shape info record produced by `get_shape_info`: the three
unconditional dict keys plus the kind-conditional ones (`none` when the
key is absent from the dict). -/
structure ShapeInfo where
  type : String
  area : ℝ
  description : String
  is_right_triangle : Option Bool
  radius : Option ℚ
  circumference : Option ℝ

/-- `ShapeCalculator.get_shape_info`: builds the info dict with `type`,
`area` (invoking `.area()` with no capability check — a non-shape raises
`AttributeError` here) and `description`; then populates conditional
fields by `isinstance` chain: Triangle first, else Circle; Rectangle and
any other shape kind get no conditional fields. -/
noncomputable def ShapeCalculator.get_shape_info (v : Value) :
    Except GeomError ShapeInfo := do
  let a ← v.areaAttr
  match v with
  | .shape (.triangle t) =>
      pure { type := v.typeName, area := a, description := t.str,
             is_right_triangle := some t.is_right_triangle,
             radius := none, circumference := none }
  | .shape (.circle c) =>
      pure { type := v.typeName, area := a, description := c.str,
             is_right_triangle := none,
             radius := some c.radius,
             circumference := some (2 * Real.pi * (c.radius : ℝ)) }
  | .shape s =>
      pure { type := v.typeName, area := a, description := s.str,
             is_right_triangle := none, radius := none, circumference := none }
  | .nonShape n =>
      pure { type := n, area := a, description := n,
             is_right_triangle := none, radius := none, circumference := none }

/-- Inversion of a successful `Triangle.init`: both validation checks
passed and the resulting value is the record the constructor builds. -/
theorem Triangle.init_ok (s1 s2 s3 : ℚ) (t : Triangle)
    (h : Triangle.init s1 s2 s3 = .ok t) :
    (0 < s1 ∧ 0 < s2 ∧ 0 < s3) ∧
    (s3 < s1 + s2 ∧ s1 < s2 + s3 ∧ s2 < s1 + s3) ∧
    t = ⟨s1, s2, s3, List.insertionSort (· ≤ ·) [s1, s2, s3]⟩ := by
  rw [Triangle.init] at h
  split at h
  · exact absurd h (by simp)
  · split at h
    · exact absurd h (by simp)
    · rename_i hpos hineq
      push_neg at hineq
      simp only [Except.ok.injEq] at h
      exact ⟨not_not.mp hpos, hineq, h.symm⟩

/-- The stored `sides` of a validly constructed triangle form an ascending
three-element list that is a permutation of the constructor arguments. -/
theorem Triangle.sides_shape (s1 s2 s3 : ℚ) (t : Triangle)
    (h : Triangle.init s1 s2 s3 = .ok t) :
    ∃ a b c : ℚ, t.sides = [a, b, c] ∧ a ≤ b ∧ b ≤ c ∧
      List.Perm [a, b, c] [s1, s2, s3] := by
  obtain ⟨-, -, rfl⟩ := Triangle.init_ok s1 s2 s3 t h
  have hperm := List.perm_insertionSort (α := ℚ) (· ≤ ·) [s1, s2, s3]
  have hlen : (List.insertionSort (α := ℚ) (· ≤ ·) [s1, s2, s3]).length = 3 :=
    hperm.length_eq
  obtain ⟨a, b, c, hl⟩ := List.length_eq_three.mp hlen
  have hs := List.sorted_insertionSort (α := ℚ) (· ≤ ·) [s1, s2, s3]
  rw [hl] at hs hperm
  refine ⟨a, b, c, hl, ?_, ?_, hperm⟩
  · exact (List.sorted_cons.mp hs).1 b (by simp)
  · exact (List.sorted_cons.mp (List.sorted_cons.mp hs).2).1 c (by simp)

/-- Evaluating the constructor on the 3-4-5 triple. -/
theorem init_345 : Triangle.init 3 4 5 = .ok ⟨3, 4, 5, [3, 4, 5]⟩ := by
  rw [Triangle.init, if_neg, if_neg] <;>
    norm_num [List.insertionSort, List.orderedInsert]

/-- Evaluating the constructor on the 5-12-13 triple. -/
theorem init_51213 : Triangle.init 5 12 13 = .ok ⟨5, 12, 13, [5, 12, 13]⟩ := by
  rw [Triangle.init, if_neg, if_neg] <;>
    norm_num [List.insertionSort, List.orderedInsert]

/-- Evaluating the constructor on the equilateral 2-2-2 triple. -/
theorem init_222 : Triangle.init 2 2 2 = .ok ⟨2, 2, 2, [2, 2, 2]⟩ := by
  rw [Triangle.init, if_neg, if_neg] <;>
    norm_num [List.insertionSort, List.orderedInsert]

/-- C1: Triangle construction fails with `InvalidArgument` when a side is
not strictly positive, fails with `InvalidArgument` when the triangle
inequality fails for any of the three orderings, and on every triple
passing both checks succeeds with the three sides stored in original order
plus an ascending-sorted copy of them. -/
theorem claim_C1 (s1 s2 s3 : ℚ) :
    (¬ (0 < s1 ∧ 0 < s2 ∧ 0 < s3) →
      Triangle.init s1 s2 s3 = .error (.invalidArgument "All sides must be positive")) ∧
    ((0 < s1 ∧ 0 < s2 ∧ 0 < s3) →
      (s1 + s2 ≤ s3 ∨ s2 + s3 ≤ s1 ∨ s1 + s3 ≤ s2) →
      Triangle.init s1 s2 s3 =
        .error (.invalidArgument "Sides don\x27t form a valid triangle")) ∧
    ((0 < s1 ∧ 0 < s2 ∧ 0 < s3) →
      (s3 < s1 + s2 ∧ s1 < s2 + s3 ∧ s2 < s1 + s3) →
      ∃ t, Triangle.init s1 s2 s3 = .ok t ∧
        t.side1 = s1 ∧ t.side2 = s2 ∧ t.side3 = s3 ∧
        List.Perm t.sides [s1, s2, s3] ∧ t.sides.Sorted (· ≤ ·)) := by
  refine ⟨?_, ?_, ?_⟩
  · intro h
    rw [Triangle.init, if_pos h]
  · intro hpos hineq
    rw [Triangle.init, if_neg (not_not_intro hpos), if_pos hineq]
  · rintro hpos ⟨h1, h2, h3⟩
    have hineq : ¬ (s1 + s2 ≤ s3 ∨ s2 + s3 ≤ s1 ∨ s1 + s3 ≤ s2) := by
      push_neg
      exact ⟨h1, h2, h3⟩
    refine ⟨⟨s1, s2, s3, List.insertionSort (· ≤ ·) [s1, s2, s3]⟩, ?_, rfl, rfl, rfl,
      List.perm_insertionSort (α := ℚ) (· ≤ ·) [s1, s2, s3],
      List.sorted_insertionSort (α := ℚ) (· ≤ ·) [s1, s2, s3]⟩
    rw [Triangle.init, if_neg (not_not_intro hpos), if_neg hineq]

/-- Witness for C1 at the concrete triple `(3, 4, 5)`. -/
theorem claim_C1_witness :
    ∃ t, Triangle.init 3 4 5 = .ok t ∧
      t.side1 = 3 ∧ t.side2 = 4 ∧ t.side3 = 5 ∧
      List.Perm t.sides [3, 4, 5] ∧ t.sides.Sorted (· ≤ ·) :=
  (claim_C1 3 4 5).2.2 (by norm_num) (by norm_num)

/-- C9: every successfully constructed Circle satisfies `radius > 0` and
every successfully constructed Rectangle satisfies `width > 0` and
`height > 0`; a construction violating the invariant fails with
`InvalidArgument` and produces no value. -/
theorem claim_C9 :
    (∀ radius : ℚ, ∀ c : Circle, Circle.init radius = .ok c →
      0 < c.radius ∧ c.radius = radius) ∧
    (∀ radius : ℚ, radius ≤ 0 →
      Circle.init radius = .error (.invalidArgument "Radius must be positive")) ∧
    (∀ w h : ℚ, ∀ r : Rectangle, Rectangle.init w h = .ok r →
      (0 < r.width ∧ 0 < r.height) ∧ r.width = w ∧ r.height = h) ∧
    (∀ w h : ℚ, w ≤ 0 ∨ h ≤ 0 →
      Rectangle.init w h =
        .error (.invalidArgument "Width and height must be positive")) := by
  refine ⟨?_, ?_, ?_, ?_⟩
  · intro radius c h
    rw [Circle.init] at h
    split at h
    · exact absurd h (by simp)
    · rename_i hle
      simp only [Except.ok.injEq] at h
      subst h
      exact ⟨lt_of_not_le hle, rfl⟩
  · intro radius h
    rw [Circle.init, if_pos h]
  · intro w hgt r h
    rw [Rectangle.init] at h
    split at h
    · exact absurd h (by simp)
    · rename_i hle
      push_neg at hle
      simp only [Except.ok.injEq] at h
      subst h
      exact ⟨⟨lt_of_not_le (fun hc => absurd hc (not_le.mpr hle.1)), hle.2⟩, rfl, rfl⟩
  · intro w hgt h
    rw [Rectangle.init, if_pos h]

/-- Witness for C9 at `Circle(5)`, `Circle(0)`, `Rectangle(4, 5)` and
`Rectangle(0, 5)`. -/
theorem claim_C9_witness :
    (0 < (⟨5⟩ : Circle).radius ∧ (⟨5⟩ : Circle).radius = 5) ∧
    Circle.init 0 = .error (.invalidArgument "Radius must be positive") ∧
    ((0 < (⟨4, 5⟩ : Rectangle).width ∧ 0 < (⟨4, 5⟩ : Rectangle).height) ∧
      (⟨4, 5⟩ : Rectangle).width = 4 ∧ (⟨4, 5⟩ : Rectangle).height = 5) ∧
    Rectangle.init 0 5 = .error (.invalidArgument "Width and height must be positive") :=
  ⟨claim_C9.1 5 ⟨5⟩ rfl,
   claim_C9.2.1 0 (by norm_num),
   claim_C9.2.2.1 4 5 ⟨4, 5⟩ rfl,
   claim_C9.2.2.2 0 5 (Or.inl (by norm_num))⟩

/-- C4: for a validly constructed triangle with sorted sides `[a, b, c]`,
`is_right_triangle` is true iff `|a² + b² - c²| < 1e-10`; for a validly
constructed rectangle, `is_square` is true iff `|width - height| < 1e-10`;
both use the same fixed tolerance `1 / 10^10`. -/
theorem claim_C4 :
    (∀ s1 s2 s3 : ℚ, ∀ t : Triangle, Triangle.init s1 s2 s3 = .ok t →
      ∀ a b c : ℚ, t.sides = [a, b, c] →
        (t.is_right_triangle = true ↔ |a ^ 2 + b ^ 2 - c ^ 2| < 1 / 10 ^ 10)) ∧
    (∀ w h : ℚ, ∀ r : Rectangle, Rectangle.init w h = .ok r →
      (r.is_square = true ↔ |r.width - r.height| < 1 / 10 ^ 10)) := by
  constructor
  · intro s1 s2 s3 t _ a b c hsides
    simp [Triangle.is_right_triangle, hsides]
  · intro w h r _
    simp [Rectangle.is_square]

/-- Witness for C4 at the right triangle `(3, 4, 5)` and the square
rectangle `(5, 5)`. -/
theorem claim_C4_witness :
    ((⟨3, 4, 5, [3, 4, 5]⟩ : Triangle).is_right_triangle = true ↔
      |(3 : ℚ) ^ 2 + 4 ^ 2 - 5 ^ 2| < 1 / 10 ^ 10) ∧
    ((⟨5, 5⟩ : Rectangle).is_square = true ↔ |(5 : ℚ) - 5| < 1 / 10 ^ 10) :=
  ⟨claim_C4.1 3 4 5 ⟨3, 4, 5, [3, 4, 5]⟩ init_345 3 4 5 rfl,
   claim_C4.2 5 5 ⟨5, 5⟩ rfl⟩

/-- C5: `calculate_area` fails with `TypeMismatch` exactly when the
argument is not a shape; on every shape argument it returns `shape.area()`
and does not fail. -/
theorem claim_C5 :
    (∀ v : Value,
      (∃ msg, ShapeCalculator.calculate_area v = .error (.typeMismatch msg)) ↔
      ∀ s : Shape, v ≠ .shape s) ∧
    (∀ s : Shape, ShapeCalculator.calculate_area (.shape s) = .ok s.area) := by
  constructor
  · intro v
    cases v with
    | shape s =>
        constructor
        · rintro ⟨msg, hmsg⟩
          exact absurd hmsg (by simp [ShapeCalculator.calculate_area])
        · intro hne
          exact absurd rfl (hne s)
    | nonShape n =>
        constructor
        · intro _ _ h
          exact Value.noConfusion h
        · intro _
          exact ⟨"Object must be a Shape", rfl⟩
  · intro s
    rfl

/-- Witness for C5 at a non-shape value named `int` and at the shape
`Rectangle(2, 3)`. -/
theorem claim_C5_witness :
    (∃ msg, ShapeCalculator.calculate_area (.nonShape "int") =
      .error (.typeMismatch msg)) ∧
    ShapeCalculator.calculate_area (.shape (.rectangle ⟨2, 3⟩)) =
      .ok (Shape.area (.rectangle ⟨2, 3⟩)) :=
  ⟨(claim_C5.1 (.nonShape "int")).2 (fun _ h => Value.noConfusion h),
   claim_C5.2 (.rectangle ⟨2, 3⟩)⟩

/-- The fold in `calculate_total_area`, run over shape values from any
accumulator, succeeds with the accumulator plus the sum of the areas. -/
theorem foldl_area_ok (shapes : List Shape) : ∀ acc : ℝ,
    List.foldlM (fun acc v => do
      let a ← Value.areaAttr v
      pure (acc + a)) acc (shapes.map Value.shape) =
      .ok (acc + (shapes.map Shape.area).sum) := by
  induction shapes with
  | nil =>
      intro acc
      simp only [List.map_nil, List.foldlM_nil, List.sum_nil, add_zero]
      rfl
  | cons s ss ih =>
      intro acc
      simp only [List.map_cons, List.foldlM_cons, List.sum_cons]
      show List.foldlM _ (acc + s.area) (ss.map Value.shape) =
        Except.ok (acc + (s.area + (ss.map Shape.area).sum))
      rw [ih (acc + s.area), add_assoc]

/-- C6: `calculate_total_area` over a sequence of validly constructed
shapes returns the ordered sum of their areas; it returns `0` on the empty
sequence and does not fail on sequences of length zero or one. -/
theorem claim_C6 :
    (∀ shapes : List Shape,
      ShapeCalculator.calculate_total_area (shapes.map Value.shape) =
        .ok ((shapes.map Shape.area).sum)) ∧
    ShapeCalculator.calculate_total_area [] = .ok 0 ∧
    (∀ s : Shape, ShapeCalculator.calculate_total_area [.shape s] = .ok s.area) := by
  have hfold : ∀ shapes : List Shape,
      ShapeCalculator.calculate_total_area (shapes.map Value.shape) =
        .ok ((shapes.map Shape.area).sum) := by
    intro shapes
    show List.foldlM _ _ _ = _
    rw [foldl_area_ok shapes 0, zero_add]
  refine ⟨hfold, rfl, ?_⟩
  intro s
  have h := hfold [s]
  simpa using h

/-- The fold in `calculate_total_area` only ever fails with an
`attributeError`, never with a `typeMismatch`, from any accumulator. -/
theorem foldl_area_no_mismatch (vs : List Value) : ∀ acc msg,
    List.foldlM (fun acc v => do
      let a ← Value.areaAttr v
      pure (acc + a)) acc vs ≠ .error (.typeMismatch msg) := by
  induction vs with
  | nil =>
      intro acc msg h
      exact Except.noConfusion h
  | cons v vs ih =>
      intro acc msg h
      cases v with
      | shape s =>
          rw [List.foldlM_cons] at h
          exact ih (acc + s.area) msg h
      | nonShape n =>
          rw [List.foldlM_cons] at h
          simp only [Value.areaAttr] at h
          exact GeomError.noConfusion (Except.error.inj h)

/-- C10: only `calculate_area` performs the shape-capability check;
`calculate_total_area` and `get_shape_info` never fail with the `TypeMismatch` of the error contract, and on a non-shape input each fails with an
attribute-lookup error instead. -/
theorem claim_C10 :
    (∀ vs : List Value, ∀ msg,
      ShapeCalculator.calculate_total_area vs ≠ .error (.typeMismatch msg)) ∧
    (∀ v : Value, ∀ msg,
      ShapeCalculator.get_shape_info v ≠ .error (.typeMismatch msg)) ∧
    (∀ n, ∃ msg,
      ShapeCalculator.calculate_total_area [.nonShape n] =
        .error (.attributeError msg)) ∧
    (∀ n, ∃ msg,
      ShapeCalculator.get_shape_info (.nonShape n) =
        .error (.attributeError msg)) := by
  refine ⟨?_, ?_, ?_, ?_⟩
  · intro vs msg h
    exact foldl_area_no_mismatch vs 0 msg h
  · intro v msg h
    cases v with
    | shape s =>
        cases s <;> exact Except.noConfusion h
    | nonShape n =>
        exact GeomError.noConfusion (Except.error.inj h)
  · intro n
    exact ⟨n ++ " object has no attribute area", rfl⟩
  · intro n
    exact ⟨n ++ " object has no attribute area", rfl⟩

/-- The radicand of a triangle whose stored sides are `[a, b, c]`, written
with the explicit semi-perimeter `(a + b + c) / 2`. -/
theorem radicand_eq (t : Triangle) (a b c : ℚ) (h : t.sides = [a, b, c]) :
    t.radicand = ((a + b + c) / 2) * ((a + b + c) / 2 - a) *
      ((a + b + c) / 2 - b) * ((a + b + c) / 2 - c) := by
  rw [Triangle.radicand, h]
  simp only [List.sum_cons, List.sum_nil, add_zero, List.getD_cons_zero,
    List.getD_cons_succ]
  ring

/-- C8: every validly constructed circle has area exactly `π·radius²`
(hence within 1e-10 of it), and every validly constructed rectangle has
area exactly `width * height`. -/
theorem claim_C8 :
    (∀ radius : ℚ, 0 < radius → ∀ c : Circle, Circle.init radius = .ok c →
      c.area = Real.pi * (radius : ℝ) ^ 2 ∧
      |c.area - Real.pi * (radius : ℝ) ^ 2| < 1 / 10 ^ 10) ∧
    (∀ w h : ℚ, ∀ r : Rectangle, Rectangle.init w h = .ok r →
      r.area = (r.width : ℝ) * (r.height : ℝ)) := by
  constructor
  · intro radius hpos c hc
    have hr : c.radius = radius := by
      rw [Circle.init, if_neg (not_le.mpr hpos)] at hc
      simp only [Except.ok.injEq] at hc
      rw [← hc]
    refine ⟨by rw [Circle.area, hr], ?_⟩
    rw [Circle.area, hr, sub_self, abs_zero]
    norm_num
  · intro w h r _
    rw [Rectangle.area]
    push_cast
    rfl

/-- Witness for C8 at `Circle(2)` and `Rectangle(2, 3)`. -/
theorem claim_C8_witness :
    ((⟨2⟩ : Circle).area = Real.pi * ((2 : ℚ) : ℝ) ^ 2 ∧
      |(⟨2⟩ : Circle).area - Real.pi * ((2 : ℚ) : ℝ) ^ 2| < 1 / 10 ^ 10) ∧
    (⟨2, 3⟩ : Rectangle).area =
      ((⟨2, 3⟩ : Rectangle).width : ℝ) * ((⟨2, 3⟩ : Rectangle).height : ℝ) :=
  ⟨claim_C8.1 2 (by norm_num) ⟨2⟩ rfl, claim_C8.2 2 3 ⟨2, 3⟩ rfl⟩

/-- C2: the area of every validly constructed triangle is exactly the Heron
formula over its ascending-sorted sides (hence within 1e-10 of it), and in
particular the 3-4-5, 5-12-13 and 2-2-2 triangles have areas `6`, `30` and
`√3`. -/
theorem claim_C2 :
    (∀ s1 s2 s3 : ℚ, ∀ t : Triangle, Triangle.init s1 s2 s3 = .ok t →
      ∃ a b c : ℚ, t.sides = [a, b, c] ∧ a ≤ b ∧ b ≤ c ∧
        List.Perm [a, b, c] [s1, s2, s3] ∧
        t.area = Real.sqrt ((((a : ℝ) + b + c) / 2) *
          ((((a : ℝ) + b + c) / 2) - a) * ((((a : ℝ) + b + c) / 2) - b) *
          ((((a : ℝ) + b + c) / 2) - c))) ∧
    (∀ t, Triangle.init 3 4 5 = .ok t →
      t.area = 6 ∧ |t.area - 6| < 1 / 10 ^ 10) ∧
    (∀ t, Triangle.init 5 12 13 = .ok t →
      t.area = 30 ∧ |t.area - 30| < 1 / 10 ^ 10) ∧
    (∀ t, Triangle.init 2 2 2 = .ok t →
      t.area = Real.sqrt 3 ∧ |t.area - Real.sqrt 3| < 1 / 10 ^ 10) := by
  refine ⟨?_, ?_, ?_, ?_⟩
  · intro s1 s2 s3 t ht
    obtain ⟨a, b, c, hs, hab, hbc, hperm⟩ := Triangle.sides_shape s1 s2 s3 t ht
    refine ⟨a, b, c, hs, hab, hbc, hperm, ?_⟩
    rw [Triangle.area, radicand_eq t a b c hs]
    congr 1
    push_cast
    ring
  · intro t ht
    have heq : t = ⟨3, 4, 5, [3, 4, 5]⟩ := Except.ok.inj (ht.symm.trans init_345)
    subst heq
    have hrad : Triangle.radicand ⟨3, 4, 5, [3, 4, 5]⟩ = 36 := by
      norm_num [Triangle.radicand]
    have h6 : Triangle.area ⟨3, 4, 5, [3, 4, 5]⟩ = 6 := by
      rw [Triangle.area, hrad]
      rw [show (((36 : ℚ) : ℝ)) = 6 ^ 2 by norm_num]
      exact Real.sqrt_sq (by norm_num)
    rw [h6, sub_self, abs_zero]
    norm_num
  · intro t ht
    have heq : t = ⟨5, 12, 13, [5, 12, 13]⟩ := Except.ok.inj (ht.symm.trans init_51213)
    subst heq
    have hrad : Triangle.radicand ⟨5, 12, 13, [5, 12, 13]⟩ = 900 := by
      norm_num [Triangle.radicand]
    have h30 : Triangle.area ⟨5, 12, 13, [5, 12, 13]⟩ = 30 := by
      rw [Triangle.area, hrad]
      rw [show (((900 : ℚ) : ℝ)) = 30 ^ 2 by norm_num]
      exact Real.sqrt_sq (by norm_num)
    rw [h30, sub_self, abs_zero]
    norm_num
  · intro t ht
    have heq : t = ⟨2, 2, 2, [2, 2, 2]⟩ := Except.ok.inj (ht.symm.trans init_222)
    subst heq
    have hrad : Triangle.radicand ⟨2, 2, 2, [2, 2, 2]⟩ = 3 := by
      norm_num [Triangle.radicand]
    have h3 : Triangle.area ⟨2, 2, 2, [2, 2, 2]⟩ = Real.sqrt 3 := by
      rw [Triangle.area, hrad]
      norm_num
    rw [h3, sub_self, abs_zero]
    norm_num

/-- Witness for C2 at the concrete triple `(3, 4, 5)`. -/
theorem claim_C2_witness :
    Triangle.area ⟨3, 4, 5, [3, 4, 5]⟩ = 6 ∧
    |Triangle.area ⟨3, 4, 5, [3, 4, 5]⟩ - 6| < 1 / 10 ^ 10 :=
  claim_C2.2.1 ⟨3, 4, 5, [3, 4, 5]⟩ init_345

/-- C3: for every validly constructed triangle the Heron radicand is
strictly positive, so `area` (a total function in this embedding, as
`Real.sqrt` maps every nonpositive argument to `0`) never meets a
square-root domain failure; moreover the computation agrees with the
radicand clamped to zero before the square root. -/
theorem claim_C3 (s1 s2 s3 : ℚ) (t : Triangle)
    (h : Triangle.init s1 s2 s3 = .ok t) :
    0 < t.radicand ∧
    t.area = Real.sqrt ((t.radicand : ℝ)) ∧
    t.area = Real.sqrt (max 0 ((t.radicand : ℝ))) := by
  obtain ⟨⟨h1, h2, h3⟩, ⟨hi1, hi2, hi3⟩, -⟩ := Triangle.init_ok s1 s2 s3 t h
  obtain ⟨a, b, c, hs, -, -, hperm⟩ := Triangle.sides_shape s1 s2 s3 t h
  have hsum : a + b + c = s1 + s2 + s3 := by
    have hq := hperm.sum_eq
    simp only [List.sum_cons, List.sum_nil, add_zero] at hq
    linarith
  have hfac : ∀ x : ℚ, x ∈ ([s1, s2, s3] : List ℚ) →
      0 < (s1 + s2 + s3) / 2 - x := by
    intro x hx
    simp only [List.mem_cons, List.not_mem_nil, or_false] at hx
    rcases hx with rfl | rfl | rfl <;> linarith
  have hpos : 0 < t.radicand := by
    rw [radicand_eq t a b c hs, hsum]
    have hmem : ∀ x : ℚ, x ∈ ([a, b, c] : List ℚ) → x ∈ ([s1, s2, s3] : List ℚ) :=
      fun x hx => hperm.mem_iff.mp hx
    refine mul_pos (mul_pos (mul_pos (by linarith) ?_) ?_) ?_
    · exact hfac a (hmem a (by simp))
    · exact hfac b (hmem b (by simp))
    · exact hfac c (hmem c (by simp))
  have hcast : (0 : ℝ) < (t.radicand : ℝ) := by exact_mod_cast hpos
  exact ⟨hpos, by rw [Triangle.area], by rw [Triangle.area, max_eq_right hcast.le]⟩

/-- Witness for C3 at the concrete triple `(3, 4, 5)`. -/
theorem claim_C3_witness :
    0 < Triangle.radicand ⟨3, 4, 5, [3, 4, 5]⟩ ∧
    Triangle.area ⟨3, 4, 5, [3, 4, 5]⟩ =
      Real.sqrt ((Triangle.radicand ⟨3, 4, 5, [3, 4, 5]⟩ : ℝ)) ∧
    Triangle.area ⟨3, 4, 5, [3, 4, 5]⟩ =
      Real.sqrt (max 0 ((Triangle.radicand ⟨3, 4, 5, [3, 4, 5]⟩ : ℝ))) :=
  claim_C3 3 4 5 ⟨3, 4, 5, [3, 4, 5]⟩ init_345

/-- C7: `get_shape_info` returns a record with the kind label, the area
and the description; conditional fields are chosen in fixed priority
order — a Triangle gets the `is_right_triangle` boolean, else a Circle
gets `radius` and `circumference = 2·π·radius`; a Rectangle and any
unknown shape kind get no conditional fields and no failure. In
particular `Circle(2)` yields type `"Circle"`, area `4π`, description
`"Circle(radius=2)"`, radius `2` and circumference `4π`. -/
theorem claim_C7 :
    (∀ t : Triangle, ∃ info,
      ShapeCalculator.get_shape_info (.shape (.triangle t)) = .ok info ∧
      info.type = "Triangle" ∧ info.area = t.area ∧ info.description = t.str ∧
      info.is_right_triangle = some t.is_right_triangle ∧
      info.radius = none ∧ info.circumference = none) ∧
    (∀ c : Circle, ∃ info,
      ShapeCalculator.get_shape_info (.shape (.circle c)) = .ok info ∧
      info.type = "Circle" ∧ info.area = c.area ∧ info.description = c.str ∧
      info.is_right_triangle = none ∧ info.radius = some c.radius ∧
      info.circumference = some (2 * Real.pi * (c.radius : ℝ))) ∧
    (∀ r : Rectangle, ∃ info,
      ShapeCalculator.get_shape_info (.shape (.rectangle r)) = .ok info ∧
      info.type = "Rectangle" ∧ info.area = r.area ∧ info.description = r.str ∧
      info.is_right_triangle = none ∧ info.radius = none ∧
      info.circumference = none) ∧
    (∀ n a d, ∃ info,
      ShapeCalculator.get_shape_info (.shape (.other n a d)) = .ok info ∧
      info.type = n ∧ info.area = a ∧ info.description = d ∧
      info.is_right_triangle = none ∧ info.radius = none ∧
      info.circumference = none) ∧
    (∀ c : Circle, Circle.init 2 = .ok c →
      ∃ info, ShapeCalculator.get_shape_info (.shape (.circle c)) = .ok info ∧
        info.type = "Circle" ∧ info.area = 4 * Real.pi ∧
        info.description = "Circle(radius=2)" ∧ info.radius = some 2 ∧
        info.circumference = some (4 * Real.pi)) := by
  refine ⟨?_, ?_, ?_, ?_, ?_⟩
  · intro t
    exact ⟨_, rfl, rfl, rfl, rfl, rfl, rfl, rfl⟩
  · intro c
    exact ⟨_, rfl, rfl, rfl, rfl, rfl, rfl, rfl⟩
  · intro r
    exact ⟨_, rfl, rfl, rfl, rfl, rfl, rfl, rfl⟩
  · intro n a d
    exact ⟨_, rfl, rfl, rfl, rfl, rfl, rfl, rfl⟩
  · intro c hc
    have heq : c = ⟨2⟩ := Except.ok.inj (hc.symm.trans rfl)
    subst heq
    refine ⟨_, rfl, rfl, ?_, ?_, rfl, ?_⟩
    · show Real.pi * ((2 : ℚ) : ℝ) ^ 2 = 4 * Real.pi
      push_cast
      ring
    · show Circle.str ⟨2⟩ = "Circle(radius=2)"
      decide
    · show some (2 * Real.pi * ((2 : ℚ) : ℝ)) = some (4 * Real.pi)
      refine congrArg some ?_
      push_cast
      ring

/-- Witness for C7 at the concrete shape `Circle(2)`. -/
theorem claim_C7_witness :
    ∃ info, ShapeCalculator.get_shape_info (.shape (.circle ⟨2⟩)) = .ok info ∧
      info.type = "Circle" ∧ info.area = 4 * Real.pi ∧
      info.description = "Circle(radius=2)" ∧ info.radius = some 2 ∧
      info.circumference = some (4 * Real.pi) :=
  claim_C7.2.2.2.2 ⟨2⟩ rfl

/-- Witness for C10 at the concrete non-shape value named `int`. -/
theorem claim_C10_witness :
    ShapeCalculator.calculate_total_area [.nonShape "int"] ≠
      .error (.typeMismatch "Object must be a Shape") ∧
    (∃ msg, ShapeCalculator.calculate_total_area [.nonShape "int"] =
      .error (.attributeError msg)) ∧
    (∃ msg, ShapeCalculator.get_shape_info (.nonShape "int") =
      .error (.attributeError msg)) :=
  ⟨claim_C10.1 [.nonShape "int"] "Object must be a Shape",
   claim_C10.2.2.1 "int", claim_C10.2.2.2 "int"⟩

end Geom
